import Mathlib

/-!
Verification development for the podcast-shorts pipeline
(`src/podcast_shorts/`): a shallow embedding of the quality-gated
routing layer (`graph/edges.py`), the retry-counter bookkeeping of the
stage nodes (`nodes/trend_researcher.py`, `nodes/scriptwriter.py`,
`nodes/media_producer.py`, `nodes/auto_editor.py`), the graph wiring
(`graph/builder.py`), the resume endpoints (`api/routes.py`), and the
scene-timeline composer (`_distribute_captions` in
`nodes/auto_editor.py`).

Python floats are modelled as exact rationals (`ℚ`), `dict[str, int]`
as association lists with Python `dict.get`/`{**d, k: v}` semantics,
`Optional[...]` as `Option`, and external collaborators (LLM calls,
file-system checks, audio measurement) as explicit parameters of the
node models.
-/

set_option maxHeartbeats 1000000

/-- Configuration values from `config.py` (`Settings`). Only the fields the
routing and quality logic reads are modelled; both are env-overridable, the
defaults are `quality_threshold: float = 0.7`, `max_retries: int = 2`. -/
structure Settings where
  quality_threshold : ℚ := 7/10
  max_retries : Nat := 2
deriving Repr, DecidableEq

/-- The `QualityAssessment` TypedDict from `graph/state.py`. -/
structure QualityAssessment where
  node_name : String
  passed : Bool
  score : ℚ
  feedback : String
  attempt : Nat
deriving Repr, DecidableEq

/-- Lookup with default, modelling Python `d.get(k, default)` on
`dict[str, int]` (first binding wins; the dicts built by the code never
hold duplicate keys). -/
def dictGet : List (String × Nat) → String → Nat → Nat
  | [], _, default => default
  | (k', v) :: rest, k, default =>
      if k' = k then v else dictGet rest k default

/-- Update, modelling Python `{**d, k: v}`: replace the binding of `k` in
place if present, otherwise append it. -/
def dictSet : List (String × Nat) → String → Nat → List (String × Nat)
  | [], k, v => [(k, v)]
  | (k', v') :: rest, k, v =>
      if k' = k then (k, v) :: rest else (k', v') :: dictSet rest k v

/-- The fields of the `PipelineState` TypedDict (`graph/state.py`) read or
written by the routing functions, the retry bookkeeping and the human-review
gate. The remaining fields (trend/script/media payloads, run configuration,
error string) are never inspected by the logic verified here. -/
structure PipelineState where
  quality : Option QualityAssessment := none
  retry_counts : List (String × Nat) := []
  human_approved : Option Bool := none
  human_feedback : Option String := none
deriving Repr, DecidableEq

/-- The `END` sentinel imported from langgraph in `graph/edges.py`. -/
def END : String := "__end__"

/-- Python truthiness of `quality is None or quality["passed"]`, the guard
used at the top of every routing function in `graph/edges.py`. -/
def qualityAbsentOrPassed (st : PipelineState) : Bool :=
  match st.quality with
  | none => true
  | some q => q.passed

/-- `_should_retry` from `graph/edges.py` lines 13-19: retry only when a
failing assessment is present and the node's retry counter is still below
`settings.max_retries`. -/
def should_retry (s : Settings) (st : PipelineState) (node_name : String) : Bool :=
  match st.quality with
  | none => false
  | some q =>
      if q.passed then false
      else decide (dictGet st.retry_counts node_name 0 < s.max_retries)

/-- `route_after_trend` from `graph/edges.py` lines 22-29. -/
def route_after_trend (s : Settings) (st : PipelineState) : String :=
  if qualityAbsentOrPassed st then "topic_selection_gate"
  else if should_retry s st "trend_researcher" then "trend_researcher"
  else END

/-- `route_after_script` from `graph/edges.py` lines 32-41. -/
def route_after_script (s : Settings) (st : PipelineState) : String :=
  if qualityAbsentOrPassed st then "human_review_gate"
  else if should_retry s st "scriptwriter" then "scriptwriter"
  else END

/-- `route_after_review` from `graph/edges.py` lines 44-50: Python truthiness
of `state.get("human_approved")` (absent and `None` are falsy). -/
def route_after_review (st : PipelineState) : String :=
  if st.human_approved.getD false then "audio_choice_gate" else "scriptwriter"

/-- `route_after_media` from `graph/edges.py` lines 53-62. -/
def route_after_media (s : Settings) (st : PipelineState) : String :=
  if qualityAbsentOrPassed st then "hook_prompt_gate"
  else if should_retry s st "media_producer" then "media_producer"
  else END

/-- `route_after_editor` from `graph/edges.py` lines 65-72: both the pass
branch and the exhausted-retries branch return `"upload_results"`. -/
def route_after_editor (s : Settings) (st : PipelineState) : String :=
  if qualityAbsentOrPassed st then "upload_results"
  else if should_retry s st "auto_editor" then "auto_editor"
  else "upload_results"

/-- Modelled from the spec (§4.3 Quality-Gated Router), for comparison with
the routing functions of `graph/edges.py`: if the assessment is absent or
passed go to the fixed successor, else retry while the stage's counter is
below `max_retries`, else go to the stage's terminal failure successor. -/
def router_spec (s : Settings) (st : PipelineState)
    (stage nextStage failStage : String) : String :=
  if qualityAbsentOrPassed st then nextStage
  else if dictGet st.retry_counts stage 0 < s.max_retries then stage
  else failStage

/-- Outcome of one node attempt, abstracting the external collaborators:
`error` models the node's `except Exception` path, `ok score feedback`
models a successful run whose self-evaluation produced `score`. -/
inductive NodeOutcome where
  | error
  | ok (score : ℚ) (feedback : String)
deriving Repr, DecidableEq

/-- The state-update skeleton shared by the four retry-eligible production
nodes (`trend_researcher.py` lines 83-84 and 203-243, `scriptwriter.py`
lines 224-225 and 404-456, `media_producer.py` lines 415-416 and 556-580,
`auto_editor.py` lines 154-155 and 349-372): compute
`attempt = retry_counts.get(node, 0) + 1` on entry, produce either the
self-evaluated assessment (`passed = score >= settings.quality_threshold`)
or, on an exception, a failing assessment with score `0.0` and the node's
fixed diagnostic feedback, and return `{**retry_counts, node: attempt}`.
The external work (LLM calls, asset generation, file checks) is abstracted
by `outcome`; the node's own payload keys are not part of the modelled
state. -/
def node_skeleton (s : Settings) (node errFeedback : String)
    (outcome : NodeOutcome) (st : PipelineState) : QualityAssessment × List (String × Nat) :=
  let attempt := dictGet st.retry_counts node 0 + 1
  let quality : QualityAssessment :=
    match outcome with
    | .ok score feedback =>
        { node_name := node, passed := decide (s.quality_threshold ≤ score),
          score := score, feedback := feedback, attempt := attempt }
    | .error =>
        { node_name := node, passed := false, score := 0,
          feedback := errFeedback, attempt := attempt }
  (quality, dictSet st.retry_counts node attempt)

/-- The `trend_researcher` node (`nodes/trend_researcher.py`) as a state
transformer: LangGraph merges the returned partial update
`{"trend_data": ..., "quality": ..., "retry_counts": ...}` into the state;
the model applies that merge directly. -/
def trend_researcher_run (s : Settings) (outcome : NodeOutcome)
    (st : PipelineState) : PipelineState :=
  let (quality, rc) :=
    node_skeleton s "trend_researcher"
      "Trend research failed due to an error. Will retry." outcome st
  { st with quality := some quality, retry_counts := rc }

/-- The `scriptwriter` node (`nodes/scriptwriter.py` lines 218-456) as a
state transformer: besides the quality/retry-count skeleton, its returned
update sets `"human_approved": None` and `"human_feedback": None`
(lines 453-454), clearing the review gate's decision for the next pass. -/
def scriptwriter_run (s : Settings) (outcome : NodeOutcome)
    (st : PipelineState) : PipelineState :=
  let (quality, rc) :=
    node_skeleton s "scriptwriter"
      "Script generation failed due to an error. Will retry." outcome st
  { st with quality := some quality, retry_counts := rc,
            human_approved := none, human_feedback := none }

/-- The `media_producer` node (`nodes/media_producer.py` lines 407-580) as a
state transformer (asset generation and the file-existence quality checks
abstracted by `outcome`). -/
def media_producer_run (s : Settings) (outcome : NodeOutcome)
    (st : PipelineState) : PipelineState :=
  let (quality, rc) :=
    node_skeleton s "media_producer"
      "Media production failed due to an error. Will retry." outcome st
  { st with quality := some quality, retry_counts := rc }

/-- The `auto_editor` node (`nodes/auto_editor.py` lines 147-372) as a state
transformer (rendering and the `_assess_quality` file checks abstracted by
`outcome`). -/
def auto_editor_run (s : Settings) (outcome : NodeOutcome)
    (st : PipelineState) : PipelineState :=
  let (quality, rc) :=
    node_skeleton s "auto_editor"
      "Auto-editing failed due to an error. Will retry." outcome st
  { st with quality := some quality, retry_counts := rc }

/-- Driver for the research stage loop wired in `graph/builder.py`
lines 50-61: starting at `trend_researcher`, run one attempt per supplied
outcome, follow `route_after_trend` on the merged state, and loop while it
returns `"trend_researcher"`. Returns the first non-retry routing label
together with the state at that point (`"trend_researcher"` itself when the
outcome list runs out before the router leaves the loop). -/
def run_trend_stage (s : Settings) : PipelineState → List NodeOutcome → String × PipelineState
  | st, [] => ("trend_researcher", st)
  | st, o :: rest =>
      let st' := trend_researcher_run s o st
      if route_after_trend s st' = "trend_researcher" then run_trend_stage s st' rest
      else (route_after_trend s st', st')

/-- The resume payload of the script-review gate: the node reads it with
`review_result.get("approved", False)` and `review_result.get("feedback")`
(`nodes/human_review.py` lines 36-37). -/
structure ReviewPayload where
  approved : Option Bool := none
  feedback : Option String := none
deriving Repr, DecidableEq

/-- The `human_review_gate` node after its `interrupt` returns
(`nodes/human_review.py` lines 27-44): the resume payload's decision is
merged into the state as `human_approved` / `human_feedback`. -/
def human_review_gate_resume (payload : ReviewPayload)
    (st : PipelineState) : PipelineState :=
  { st with human_approved := some (payload.approved.getD false),
            human_feedback := payload.feedback }

/-- The node names registered by `build_graph` (`graph/builder.py`
lines 39-47). `upload_results` (from `nodes/upload_results.py`) is not
among them. -/
def build_graph_nodes : List String :=
  ["trend_researcher", "topic_selection_gate", "speaker_selection_gate",
   "scriptwriter", "human_review_gate", "audio_choice_gate",
   "media_producer", "hook_prompt_gate", "auto_editor"]

/-- The conditional-edge path map attached to `auto_editor` in `build_graph`
(`graph/builder.py` lines 102-109): routing labels it can dispatch. -/
def editor_path_map : List (String × String) :=
  [("auto_editor", "auto_editor"), ("__end__", "__end__")]

/-- Snapshot returned by `graph.aget_state(config)` in `api/routes.py`: the
tuple of pending next nodes and the checkpointed pipeline state. -/
structure GraphSnapshot where
  next : List String := []
  values : PipelineState := {}
deriving Repr, DecidableEq

/-- Point lookup of a run's snapshot in the checkpoint store, modelling
`graph.aget_state({"configurable": {"thread_id": run_id}})`; `none` models
the exception turned into a 404. -/
def storeGet : List (String × GraphSnapshot) → String → Option GraphSnapshot
  | [], _ => none
  | (k, v) :: rest, run_id =>
      if k = run_id then some v else storeGet rest run_id

/-- Replace (or append) a run's snapshot in the checkpoint store. -/
def storeSet : List (String × GraphSnapshot) → String → GraphSnapshot →
    List (String × GraphSnapshot)
  | [], k, v => [(k, v)]
  | (k', v') :: rest, k, v =>
      if k' = k then (k, v) :: rest else (k', v') :: storeSet rest k v

/-- An `HTTPException(status_code=..., detail=...)` raised by a route. -/
structure HttpError where
  status : Nat
  detail : String
deriving Repr, DecidableEq

/-- `submit_review` from `api/routes.py` lines 329-356: 404 when the run's
state cannot be loaded, 400 when `human_review_gate` is not among the
pending next nodes — both raised synchronously before anything is
scheduled — otherwise the resume (`graph.ainvoke(Command(resume=...))`,
abstracted by the `resume` parameter) is applied to the stored run and the
endpoint replies `"resumed"` / `"revision_requested"` according to
`request.approved`. The returned pair is (store after the call, response). -/
def submit_review (resume : GraphSnapshot → Bool → Option String → GraphSnapshot)
    (store : List (String × GraphSnapshot)) (run_id : String)
    (approved : Bool) (feedback : Option String) :
    List (String × GraphSnapshot) × Except HttpError String :=
  match storeGet store run_id with
  | none => (store, .error ⟨404, "Pipeline run not found"⟩)
  | some snap =>
      if "human_review_gate" ∈ snap.next then
        (storeSet store run_id (resume snap approved feedback),
         .ok (if approved then "resumed" else "revision_requested"))
      else (store, .error ⟨400, "Pipeline is not waiting for review"⟩)

/-- `submit_topic_selection` from `api/routes.py` lines 207-235, with the
same shape: 404 on unknown run, 400 when `topic_selection_gate` is not
pending, otherwise resume with `{"selected_topic": ...}` and reply
`"resumed"`. -/
def submit_topic_selection (resume : GraphSnapshot → String → GraphSnapshot)
    (store : List (String × GraphSnapshot)) (run_id : String)
    (selected_topic : String) :
    List (String × GraphSnapshot) × Except HttpError String :=
  match storeGet store run_id with
  | none => (store, .error ⟨404, "Pipeline run not found"⟩)
  | some snap =>
      if "topic_selection_gate" ∈ snap.next then
        (storeSet store run_id (resume snap selected_topic), .ok "resumed")
      else (store, .error ⟨400, "Pipeline is not waiting for topic selection"⟩)

/-- Modelled from the spec (§8): "Resume is only accepted when a Suspension
Record exists for the target run and gate type" — the run exists and the
gate node is among its pending next nodes. -/
def suspendedAtGate (store : List (String × GraphSnapshot)) (run_id gate : String) : Bool :=
  match storeGet store run_id with
  | none => false
  | some snap => decide (gate ∈ snap.next)

/-- The `AudioSegment` TypedDict from `graph/state.py` (durations are
measured seconds, modelled as exact rationals). -/
structure AudioSegment where
  scene_id : String
  audio_path : String
  duration : ℚ
deriving Repr, DecidableEq

/-- A `pysrt.SubRipItem`: `start.ordinal` / `end.ordinal` are integer
milliseconds. -/
structure SubRipItem where
  idx : Int
  startOrdinal : Int
  endOrdinal : Int
  text : String
deriving Repr, DecidableEq

/-- Python `int()` applied to a rational: truncation toward zero. -/
def pyInt (q : ℚ) : Int :=
  q.num.tdiv (q.den : Int)

/-- The caption midpoint `(sub.start.ordinal + sub.end.ordinal) / 2000.0`
(`auto_editor.py` line 59), in seconds. -/
def subMid (sub : SubRipItem) : ℚ :=
  ((sub.startOrdinal : ℚ) + (sub.endOrdinal : ℚ)) / 2000

/-- The half-open window test `win_start <= sub_mid < win_end`
(`auto_editor.py` line 61). -/
def containsMid (w : ℚ × ℚ) (m : ℚ) : Bool :=
  decide (w.1 ≤ m) && decide (m < w.2)

/-- Running-sum computation of the scene windows (`auto_editor.py`
lines 49-54), generalized over the cursor's start value. -/
def sceneWindowsAux (cursor : ℚ) : List AudioSegment → List (ℚ × ℚ)
  | [] => []
  | seg :: rest =>
      (cursor, cursor + seg.duration) :: sceneWindowsAux (cursor + seg.duration) rest

/-- The scene windows of a segment list, the cursor starting at `0.0`. -/
def sceneWindows (segs : List AudioSegment) : List (ℚ × ℚ) :=
  sceneWindowsAux 0 segs

/-- `buckets = [[] for _ in audio_segments]` (`auto_editor.py` line 56). -/
def bucketsInit (segs : List AudioSegment) : List (List SubRipItem) :=
  segs.map (fun _ => [])

/-- Replace the element at position `n` (out-of-range indices leave the list
unchanged), modelling the in-place `buckets[i].append(sub)`. -/
def listModify : List α → Nat → (α → α) → List α
  | [], _, _ => []
  | a :: as, 0, f => f a :: as
  | a :: as, n + 1, f => a :: listModify as n f

/-- Index of the first window containing the midpoint, modelling the inner
`for i, (win_start, win_end) in enumerate(scene_windows): ... break` loop
(`auto_editor.py` lines 60-63). -/
def firstContaining : List (ℚ × ℚ) → ℚ → Option Nat
  | [], _ => none
  | w :: ws, m =>
      if containsMid w m then some 0 else (firstContaining ws m).map (fun i => i + 1)

/-- Append one caption to the bucket of the first window containing its
midpoint; a caption whose midpoint lies in no window is dropped. -/
def assignCaption (windows : List (ℚ × ℚ)) (buckets : List (List SubRipItem))
    (sub : SubRipItem) : List (List SubRipItem) :=
  match firstContaining windows (subMid sub) with
  | some i => listModify buckets i (fun b => b ++ [sub])
  | none => buckets

/-- The assignment loop of `_distribute_captions` (`auto_editor.py`
lines 58-63), over all captions in input order. -/
def assignCaptions (windows : List (ℚ × ℚ)) (subs : List SubRipItem)
    (buckets : List (List SubRipItem)) : List (List SubRipItem) :=
  subs.foldl (assignCaption windows) buckets

/-- The boundary-extension pass of `_distribute_captions` (`auto_editor.py`
lines 65-72) for one scene: if the bucket is non-empty and its last caption
ends with `win_end - last_sub_end < 1.0`, rewrite that caption's end to
`int(win_end * 1000)` milliseconds. -/
def extendBucket (win_end : ℚ) (bucket : List SubRipItem) : List SubRipItem :=
  match bucket.getLast? with
  | none => bucket
  | some last_sub =>
      if win_end - (last_sub.endOrdinal : ℚ) / 1000 < 1 then
        bucket.dropLast ++ [{ last_sub with endOrdinal := pyInt (win_end * 1000) }]
      else bucket

/-- `_distribute_captions` from `nodes/auto_editor.py` lines 38-73, with the
SRT file-read (`pysrt.open`) replaced by the parsed caption list `subs`:
compute the scene windows, bucket every caption by its midpoint, then run
the boundary-extension pass on each (window, bucket) pair. -/
def distribute_captions (subs : List SubRipItem)
    (audio_segments : List AudioSegment) : List (List SubRipItem) :=
  let scene_windows := sceneWindows audio_segments
  let buckets := assignCaptions scene_windows subs (bucketsInit audio_segments)
  (scene_windows.zip buckets).map (fun wb => extendBucket wb.1.2 wb.2)

/-- Sum of the durations of the first `i` segments (closed form of the
running cursor). -/
def durSumTake (segs : List AudioSegment) (i : Nat) : ℚ :=
  ((segs.take i).map (fun s => s.duration)).sum

/-- Total summed duration of all segments. -/
def durSumAll (segs : List AudioSegment) : ℚ :=
  (segs.map (fun s => s.duration)).sum

/-! Concrete fixtures used by the example parts of the theorems below. -/

/-- Three scenes of durations 3.0 s, 4.0 s, 2.0 s. -/
def exSegs : List AudioSegment :=
  [⟨"hook", "hook.mp3", 3⟩, ⟨"body_1", "body.mp3", 4⟩, ⟨"cta", "cta.mp3", 2⟩]

/-- A caption spanning 2.8 s - 3.3 s (midpoint 3.05 s). -/
def exCaption : SubRipItem := ⟨1, 2800, 3300, "straddling caption"⟩

/-- A caption spanning 4.0 s - 5.0 s. -/
def cap45 : SubRipItem := ⟨2, 4000, 5000, "mid caption"⟩

/-- A caption spanning 6.0 s - 6.6 s. -/
def cap66 : SubRipItem := ⟨3, 6000, 6600, "tail caption"⟩

/-- A single scene of duration 2.0 s. -/
def oneSeg : List AudioSegment := [⟨"solo", "solo.mp3", 2⟩]

/-- A caption spanning 1.5 s - 1.9 s. -/
def permC1 : SubRipItem := ⟨1, 1500, 1900, "late caption"⟩

/-- A caption spanning 0.0 s - 0.4 s. -/
def permC2 : SubRipItem := ⟨2, 0, 400, "early caption"⟩

/-- A caption spanning 0.0 s - 3.5 s (midpoint 1.75 s, end 1.5 s past the
2.0 s window end of `oneSeg`). -/
def farCaption : SubRipItem := ⟨1, 0, 3500, "overlong caption"⟩

/-- A caption spanning 9.0 s - 9.5 s, past the 9.0 s total duration of
`exSegs`. -/
def lateCaption : SubRipItem := ⟨9, 9000, 9500, "dropped caption"⟩

/-- A pipeline state in which `auto_editor` has just failed with its retry
budget exhausted (`retry_counts["auto_editor"] = 2 = max_retries`). -/
def exhaustedEditorState : PipelineState :=
  { quality := some ⟨"auto_editor", false, 1/4, "Video rendering incomplete", 2⟩,
    retry_counts := [("auto_editor", 2)] }

/-- A one-run store whose run is suspended at `scriptwriter` (not at any
human gate). -/
def reviewStore : List (String × GraphSnapshot) :=
  [("r1", { next := ["scriptwriter"] })]

/-! Helper lemmas. -/

/-- Lookup after a `{**d, k: v}` update. -/
theorem dictGet_dictSet (d : List (String × Nat)) (k k' : String) (v default : Nat) :
    dictGet (dictSet d k v) k' default =
      if k = k' then v else dictGet d k' default := by
  induction d with
  | nil =>
      by_cases h : k = k' <;> simp [dictSet, dictGet, h]
  | cons p rest ih =>
      obtain ⟨a, b⟩ := p
      by_cases hak : a = k
      · subst hak
        by_cases h : a = k' <;> simp [dictSet, dictGet, h]
      · by_cases h : a = k'
        · subst h
          have hk : ¬ k = a := fun hh => hak hh.symm
          simp [dictSet, dictGet, hak, hk]
        · simp [dictSet, dictGet, hak, h, ih]

/-- Element lookup after `listModify`. -/
theorem listModify_getElem? (l : List α) (n : Nat) (f : α → α) (i : Nat) :
    (listModify l n f)[i]? = if n = i then (l[i]?).map f else l[i]? := by
  induction l generalizing n i with
  | nil => simp [listModify]
  | cons a as ih =>
      cases n with
      | zero =>
          cases i with
          | zero => simp [listModify]
          | succ j => simp [listModify]
      | succ m =>
          cases i with
          | zero => simp [listModify]
          | succ j =>
              simp only [listModify, List.getElem?_cons_succ, ih]
              by_cases h : m = j <;> simp [h]

/-- `listModify` preserves length. -/
theorem listModify_length (l : List α) (n : Nat) (f : α → α) :
    (listModify l n f).length = l.length := by
  induction l generalizing n with
  | nil => simp [listModify]
  | cons a as ih =>
      cases n with
      | zero => simp [listModify]
      | succ m => simp [listModify, ih]

/-- Bucket `i` after the assignment loop: whatever was in the initial bucket,
followed by the captions (in input order) whose first containing window is
window `i`. -/
theorem assignCaptions_getElem? (windows : List (ℚ × ℚ)) (subs : List SubRipItem)
    (buckets : List (List SubRipItem)) (i : Nat) :
    (assignCaptions windows subs buckets)[i]? =
      (buckets[i]?).map
        (fun b => b ++ subs.filter
          (fun sub => decide (firstContaining windows (subMid sub) = some i))) := by
  induction subs generalizing buckets with
  | nil =>
      cases h : buckets[i]? <;> simp [assignCaptions, h]
  | cons sub rest ih =>
      have step : assignCaptions windows (sub :: rest) buckets =
          assignCaptions windows rest (assignCaption windows buckets sub) := rfl
      rw [step, ih]
      cases hfc : firstContaining windows (subMid sub) with
      | none =>
          simp [assignCaption, hfc]
      | some j =>
          simp only [assignCaption, hfc, listModify_getElem?]
          by_cases hji : j = i
          · subst hji
            cases hb : buckets[j]? <;>
              simp [hfc, List.filter_cons, List.append_assoc]
          · have : ¬ (some j = some i) := by simp [hji]
            cases hb : buckets[i]? <;> simp [hji, hfc, List.filter_cons, this]

/-- The initial buckets: one empty list per segment. -/
theorem bucketsInit_getElem? (segs : List AudioSegment) (i : Nat) :
    (bucketsInit segs)[i]? = if i < segs.length then some [] else none := by
  unfold bucketsInit
  rw [List.getElem?_map]
  by_cases h : i < segs.length
  · rw [List.getElem?_eq_getElem h]
    simp [h]
  · rw [List.getElem?_eq_none (by omega)]
    simp [h]

/-- Membership in a post-assignment bucket. -/
theorem mem_assignCaptions (segs : List AudioSegment) (subs : List SubRipItem)
    (sub : SubRipItem) (i : Nat) (b : List SubRipItem)
    (hb : (assignCaptions (sceneWindows segs) subs (bucketsInit segs))[i]? = some b) :
    (sub ∈ b ↔ sub ∈ subs ∧ firstContaining (sceneWindows segs) (subMid sub) = some i) := by
  rw [assignCaptions_getElem?, bucketsInit_getElem?] at hb
  by_cases h : i < segs.length
  · rw [if_pos h] at hb
    simp only [Option.map_some', Option.some.injEq] at hb
    subst hb
    simp [List.mem_filter]
  · rw [if_neg h] at hb
    simp at hb

/-- `firstContaining` returns `none` exactly when no window contains the
midpoint. -/
theorem firstContaining_eq_none_iff (ws : List (ℚ × ℚ)) (m : ℚ) :
    firstContaining ws m = none ↔ ∀ w ∈ ws, containsMid w m = false := by
  induction ws with
  | nil => simp [firstContaining]
  | cons w ws ih =>
      constructor
      · intro hn
        unfold firstContaining at hn
        by_cases h : containsMid w m
        · rw [if_pos h] at hn
          exact absurd hn (by simp)
        · rw [if_neg h] at hn
          intro w' hw'
          rcases List.mem_cons.mp hw' with rfl | hmem
          · simpa using h
          · refine (ih.mp ?_) w' hmem
            cases hfc : firstContaining ws m with
            | none => rfl
            | some j => rw [hfc] at hn; simp at hn
      · intro hall
        have hw := hall w (List.mem_cons_self w ws)
        have hrest : firstContaining ws m = none :=
          ih.mpr (fun w' hw' => hall w' (List.mem_cons_of_mem _ hw'))
        unfold firstContaining
        rw [if_neg (by simp [hw]), hrest]
        rfl

/-- `firstContaining` returns the first containing window: the window at the
returned index contains the midpoint and every earlier window does not. -/
theorem firstContaining_spec (ws : List (ℚ × ℚ)) (m : ℚ) (i : Nat)
    (h : firstContaining ws m = some i) :
    ∃ w, ws[i]? = some w ∧ containsMid w m = true ∧
      ∀ j w', j < i → ws[j]? = some w' → containsMid w' m = false := by
  induction ws generalizing i with
  | nil => simp [firstContaining] at h
  | cons w ws ih =>
      unfold firstContaining at h
      by_cases hw : containsMid w m
      · rw [if_pos hw] at h
        injection h with h
        subst h
        exact ⟨w, by simp, hw, fun j w' hj _ => absurd hj (Nat.not_lt_zero j)⟩
      · rw [if_neg hw] at h
        rw [Option.map_eq_some'] at h
        obtain ⟨i', hi', rfl⟩ := h
        obtain ⟨w', hw', hcw', hmin⟩ := ih i' hi'
        refine ⟨w', by simpa using hw', hcw', ?_⟩
        intro j w'' hj hjw
        cases j with
        | zero =>
            simp only [List.getElem?_cons_zero, Option.some.injEq] at hjw
            subst hjw
            simpa using hw
        | succ j' =>
            simp only [List.getElem?_cons_succ] at hjw
            exact hmin j' w'' (by omega) hjw

/-- Closed form of the running-sum windows: window `i` starts at the sum of
the prior durations (shifted by the initial cursor). -/
theorem sceneWindowsAux_getElem? (segs : List AudioSegment) (c : ℚ) (i : Nat)
    (seg : AudioSegment) (h : segs[i]? = some seg) :
    (sceneWindowsAux c segs)[i]? =
      some (c + durSumTake segs i, c + durSumTake segs i + seg.duration) := by
  induction segs generalizing c i with
  | nil => simp at h
  | cons sg rest ih =>
      cases i with
      | zero =>
          simp only [List.getElem?_cons_zero, Option.some.injEq] at h
          subst h
          simp [sceneWindowsAux, durSumTake]
      | succ j =>
          simp only [List.getElem?_cons_succ] at h
          simp only [sceneWindowsAux, List.getElem?_cons_succ]
          rw [ih (c + sg.duration) j h]
          simp [durSumTake, List.take_succ_cons, add_assoc]

/-- Every window produced with cursor `c` over nonnegative-duration segments
ends no later than `c` plus the total remaining duration. -/
theorem sceneWindowsAux_end_le (segs : List AudioSegment) (c : ℚ)
    (hpos : ∀ seg ∈ segs, 0 ≤ seg.duration) :
    ∀ w ∈ sceneWindowsAux c segs, w.2 ≤ c + durSumAll segs := by
  induction segs generalizing c with
  | nil => simp [sceneWindowsAux]
  | cons seg rest ih =>
      intro w hw
      simp only [sceneWindowsAux, List.mem_cons] at hw
      have hrest_nonneg : 0 ≤ (rest.map (fun s => s.duration)).sum := by
        apply List.sum_nonneg
        intro x hx
        simp only [List.mem_map] at hx
        obtain ⟨sg, hsg, rfl⟩ := hx
        exact hpos sg (List.mem_cons_of_mem _ hsg)
      rcases hw with rfl | hw
      · simp only [durSumAll, List.map_cons, List.sum_cons]
        linarith
      · have := ih (c + seg.duration) (fun sg hsg => hpos sg (List.mem_cons_of_mem _ hsg)) w hw
        simp only [durSumAll, List.map_cons, List.sum_cons] at this ⊢
        linarith

/-- Pointwise lookup through `zip`. -/
theorem zip_getElem?_of {α β : Type} (l : List α) (l' : List β) (i : Nat)
    (a : α) (b : β) (ha : l[i]? = some a) (hb : l'[i]? = some b) :
    (l.zip l')[i]? = some (a, b) := by
  induction l generalizing l' i with
  | nil => simp at ha
  | cons x xs ih =>
      cases l' with
      | nil => simp at hb
      | cons y ys =>
          cases i with
          | zero =>
              simp only [List.getElem?_cons_zero, Option.some.injEq] at ha hb
              simp [List.zip, ha, hb]
          | succ j =>
              simp only [List.getElem?_cons_succ] at ha hb
              simpa [List.zip] using ih ys j ha hb

/-- Whether a route reply is a success (not an `HTTPException`). -/
def isAccepted : Except HttpError String → Bool
  | .ok _ => true
  | .error _ => false

/-- The retry-count map returned by the node skeleton: own key bumped to
`previous + 1`, all other keys unchanged. -/
theorem node_skeleton_retry_counts (s : Settings) (node err : String)
    (o : NodeOutcome) (st : PipelineState) (k : String) :
    dictGet (node_skeleton s node err o st).2 k 0 =
      if node = k then dictGet st.retry_counts k 0 + 1
      else dictGet st.retry_counts k 0 := by
  show dictGet (dictSet st.retry_counts node (dictGet st.retry_counts node 0 + 1)) k 0 = _
  rw [dictGet_dictSet]
  by_cases h : node = k
  · subst h
    simp
  · simp [h]

/-! Claim theorems. -/

/-- C1: after each retry-eligible stage (trend_researcher, scriptwriter,
media_producer), the routing function equals the spec's quality-gated
router: absent-or-passed assessment goes to the stage's fixed successor,
a failing assessment retries the stage while its counter is below
`max_retries`, and otherwise goes to the terminal `__end__` state. -/
theorem quality_gated_routing (s : Settings) (st : PipelineState) :
    route_after_trend s st =
      router_spec s st "trend_researcher" "topic_selection_gate" END
  ∧ route_after_script s st =
      router_spec s st "scriptwriter" "human_review_gate" END
  ∧ route_after_media s st =
      router_spec s st "media_producer" "hook_prompt_gate" END := by
  unfold route_after_trend route_after_script route_after_media router_spec
    should_retry qualityAbsentOrPassed
  cases hq : st.quality with
  | none => simp
  | some q => cases hp : q.passed <;> simp [hp]

/-- C2 counterexample: with `max_retries = 2` and research failing quality
on its first two attempts, the run is routed to `__end__` right after
attempt 2 with `retry_counts["trend_researcher"] = 2`; the third (passing)
outcome is never consumed, so the run does not proceed to the
topic-selection gate and the counter never reaches 3. -/
theorem research_retry_counterexample :
    (run_trend_stage {} {}
        [.ok (1/10) "low", .ok (2/10) "low again", .ok (9/10) "good"]).1 = "__end__"
  ∧ dictGet (run_trend_stage {} {}
        [.ok (1/10) "low", .ok (2/10) "low again", .ok (9/10) "good"]).2.retry_counts
        "trend_researcher" 0 = 2
  ∧ (run_trend_stage {} {}
        [.ok (1/10) "low", .ok (2/10) "low again", .ok (9/10) "good"]).1
        ≠ "topic_selection_gate" := by
  have h1 : (run_trend_stage {} {}
      [.ok (1/10) "low", .ok (2/10) "low again", .ok (9/10) "good"]).1 = "__end__" := by
    norm_num [run_trend_stage, trend_researcher_run, node_skeleton,
      route_after_trend, qualityAbsentOrPassed, should_retry, dictGet, dictSet, END]
    rfl
  have h2 : dictGet (run_trend_stage {} {}
      [.ok (1/10) "low", .ok (2/10) "low again", .ok (9/10) "good"]).2.retry_counts
      "trend_researcher" 0 = 2 := by
    norm_num [run_trend_stage, trend_researcher_run, node_skeleton,
      route_after_trend, qualityAbsentOrPassed, should_retry, dictGet, dictSet, END]
  exact ⟨h1, h2, by rw [h1]; decide⟩

/-- C2 amended: with `max_retries = 2` the counter counts total attempts,
so a second consecutive quality failure exhausts the research budget — the
run is routed to `__end__` with `retry_counts["trend_researcher"] = 2` and
a third attempt is never dispatched; a run that fails once and passes on
attempt 2 proceeds to the topic-selection gate with
`retry_counts["trend_researcher"] = 2`. -/
theorem research_retry_scenarios :
    ((run_trend_stage {} {} [.ok (1/10) "low", .ok (9/10) "good"]).1
        = "topic_selection_gate"
      ∧ dictGet (run_trend_stage {} {}
          [.ok (1/10) "low", .ok (9/10) "good"]).2.retry_counts
          "trend_researcher" 0 = 2)
  ∧ ((run_trend_stage {} {} [.ok (1/10) "low", .ok (2/10) "low again"]).1 = "__end__"
      ∧ dictGet (run_trend_stage {} {}
          [.ok (1/10) "low", .ok (2/10) "low again"]).2.retry_counts
          "trend_researcher" 0 = 2) := by
  refine ⟨⟨?_, ?_⟩, ⟨?_, ?_⟩⟩ <;>
    · norm_num [run_trend_stage, trend_researcher_run, node_skeleton,
        route_after_trend, qualityAbsentOrPassed, should_retry, dictGet, dictSet, END]
      try rfl

/-- C6 (code-bug evidence): at a state where auto_editor failed with its
retry budget exhausted, `route_after_editor` returns `"upload_results"`
(graceful degradation, not `__end__`) — but `build_graph` neither registers
an `upload_results` node nor includes that label in `auto_editor`'s
conditional-edge path map, so the compiled graph has no destination for the
router's answer and the run cannot reach the upload stage. -/
theorem editor_failure_routes_to_unregistered_node :
    route_after_editor {} exhaustedEditorState = "upload_results"
  ∧ should_retry {} exhaustedEditorState "auto_editor" = false
  ∧ route_after_editor {} exhaustedEditorState ≠ END
  ∧ editor_path_map.lookup "upload_results" = none
  ∧ "upload_results" ∉ build_graph_nodes := by
  have h1 : route_after_editor {} exhaustedEditorState = "upload_results" := by
    norm_num [route_after_editor, qualityAbsentOrPassed, should_retry,
      exhaustedEditorState, dictGet]
  refine ⟨h1, ?_, by rw [h1]; decide, by decide, by decide⟩
  norm_num [should_retry, exhaustedEditorState, dictGet]

/-- C8: resuming the script-review gate with
`{approved: false, feedback: "shorten body"}` routes the run back to the
scriptwriter with `human_feedback` carrying the text; the next scriptwriter
attempt bumps `retry_counts["scriptwriter"]` by exactly one and resets both
`human_approved` and `human_feedback` to unset in its returned update. -/
theorem review_rejection_round_trip (s : Settings) (o : NodeOutcome)
    (st : PipelineState) :
    route_after_review (human_review_gate_resume ⟨some false, some "shorten body"⟩ st)
      = "scriptwriter"
  ∧ (human_review_gate_resume ⟨some false, some "shorten body"⟩ st).human_feedback
      = some "shorten body"
  ∧ dictGet (scriptwriter_run s o
        (human_review_gate_resume ⟨some false, some "shorten body"⟩ st)).retry_counts
        "scriptwriter" 0
      = dictGet st.retry_counts "scriptwriter" 0 + 1
  ∧ (scriptwriter_run s o
        (human_review_gate_resume ⟨some false, some "shorten body"⟩ st)).human_approved
      = none
  ∧ (scriptwriter_run s o
        (human_review_gate_resume ⟨some false, some "shorten body"⟩ st)).human_feedback
      = none := by
  refine ⟨?_, rfl, ?_, ?_, ?_⟩
  · simp [route_after_review, human_review_gate_resume]
  · show dictGet (node_skeleton s "scriptwriter"
        "Script generation failed due to an error. Will retry." o
        (human_review_gate_resume ⟨some false, some "shorten body"⟩ st)).2
        "scriptwriter" 0 = _
    rw [node_skeleton_retry_counts]
    simp [human_review_gate_resume]
  · rfl
  · rfl

/-- C9: across every production-node execution, the returned retry-count
map sends the node's own stage name to the previous count plus one and
leaves every other stage's count unchanged; in particular no counter ever
decreases or resets. -/
theorem retry_counters_monotone (s : Settings) (o : NodeOutcome)
    (st : PipelineState) (k : String) :
    (dictGet (trend_researcher_run s o st).retry_counts k 0 =
        if "trend_researcher" = k then dictGet st.retry_counts k 0 + 1
        else dictGet st.retry_counts k 0)
  ∧ (dictGet (scriptwriter_run s o st).retry_counts k 0 =
        if "scriptwriter" = k then dictGet st.retry_counts k 0 + 1
        else dictGet st.retry_counts k 0)
  ∧ (dictGet (media_producer_run s o st).retry_counts k 0 =
        if "media_producer" = k then dictGet st.retry_counts k 0 + 1
        else dictGet st.retry_counts k 0)
  ∧ (dictGet (auto_editor_run s o st).retry_counts k 0 =
        if "auto_editor" = k then dictGet st.retry_counts k 0 + 1
        else dictGet st.retry_counts k 0)
  ∧ dictGet st.retry_counts k 0 ≤ dictGet (trend_researcher_run s o st).retry_counts k 0
  ∧ dictGet st.retry_counts k 0 ≤ dictGet (scriptwriter_run s o st).retry_counts k 0
  ∧ dictGet st.retry_counts k 0 ≤ dictGet (media_producer_run s o st).retry_counts k 0
  ∧ dictGet st.retry_counts k 0 ≤ dictGet (auto_editor_run s o st).retry_counts k 0 := by
  have htr : dictGet (trend_researcher_run s o st).retry_counts k 0 =
      if "trend_researcher" = k then dictGet st.retry_counts k 0 + 1
      else dictGet st.retry_counts k 0 := by
    show dictGet (node_skeleton s "trend_researcher"
        "Trend research failed due to an error. Will retry." o st).2 k 0 = _
    exact node_skeleton_retry_counts s _ _ o st k
  have hsw : dictGet (scriptwriter_run s o st).retry_counts k 0 =
      if "scriptwriter" = k then dictGet st.retry_counts k 0 + 1
      else dictGet st.retry_counts k 0 := by
    show dictGet (node_skeleton s "scriptwriter"
        "Script generation failed due to an error. Will retry." o st).2 k 0 = _
    exact node_skeleton_retry_counts s _ _ o st k
  have hmp : dictGet (media_producer_run s o st).retry_counts k 0 =
      if "media_producer" = k then dictGet st.retry_counts k 0 + 1
      else dictGet st.retry_counts k 0 := by
    show dictGet (node_skeleton s "media_producer"
        "Media production failed due to an error. Will retry." o st).2 k 0 = _
    exact node_skeleton_retry_counts s _ _ o st k
  have hae : dictGet (auto_editor_run s o st).retry_counts k 0 =
      if "auto_editor" = k then dictGet st.retry_counts k 0 + 1
      else dictGet st.retry_counts k 0 := by
    show dictGet (node_skeleton s "auto_editor"
        "Auto-editing failed due to an error. Will retry." o st).2 k 0 = _
    exact node_skeleton_retry_counts s _ _ o st k
  refine ⟨htr, hsw, hmp, hae, ?_, ?_, ?_, ?_⟩ <;>
    · first
      | (rw [htr]; split <;> omega)
      | (rw [hsw]; split <;> omega)
      | (rw [hmp]; split <;> omega)
      | (rw [hae]; split <;> omega)

/-- C7: a resume endpoint accepts exactly when the run exists and is
suspended at its matching gate (the gate node is among the run's pending
next nodes); otherwise it replies synchronously with an HTTP error and the
store — the persisted pipeline state — is returned unchanged. -/
theorem resume_protocol_safety
    (resumeR : GraphSnapshot → Bool → Option String → GraphSnapshot)
    (resumeT : GraphSnapshot → String → GraphSnapshot)
    (store : List (String × GraphSnapshot)) (run_id : String)
    (approved : Bool) (feedback : Option String) (selected_topic : String) :
    isAccepted (submit_review resumeR store run_id approved feedback).2
      = suspendedAtGate store run_id "human_review_gate"
  ∧ isAccepted (submit_topic_selection resumeT store run_id selected_topic).2
      = suspendedAtGate store run_id "topic_selection_gate"
  ∧ (suspendedAtGate store run_id "human_review_gate" = false →
      (submit_review resumeR store run_id approved feedback).1 = store)
  ∧ (suspendedAtGate store run_id "topic_selection_gate" = false →
      (submit_topic_selection resumeT store run_id selected_topic).1 = store) := by
  unfold submit_review submit_topic_selection suspendedAtGate
  cases hs : storeGet store run_id with
  | none => simp [isAccepted]
  | some snap =>
      by_cases hR : "human_review_gate" ∈ snap.next <;>
        by_cases hT : "topic_selection_gate" ∈ snap.next <;>
          simp [hR, hT, isAccepted]

/-- C7 witness: on a store whose single run is suspended at `scriptwriter`
(no human gate pending), both resume endpoints leave the store unchanged. -/
theorem resume_protocol_safety_witness :
    (submit_review (fun snap _ _ => snap) reviewStore "r1" false (some "fb")).1
      = reviewStore
  ∧ (submit_topic_selection (fun snap _ => snap) reviewStore "r1" "topic").1
      = reviewStore :=
  ⟨(resume_protocol_safety (fun snap _ _ => snap) (fun snap _ => snap)
      reviewStore "r1" false (some "fb") "topic").2.2.1 (by decide),
   (resume_protocol_safety (fun snap _ _ => snap) (fun snap _ => snap)
      reviewStore "r1" false (some "fb") "topic").2.2.2 (by decide)⟩

/-- C3: scene windows are the running sum of the segment durations
(`window[i] = [sum of prior durations, sum + duration_i)`), and a caption
lands in bucket `i` exactly when it is an input caption whose midpoint's
first containing window is window `i` — captions are never split across
buckets. Concretely, for durations [3, 4, 2] the windows are
[0,3), [3,7), [7,9) and a caption spanning 2.8 s - 3.3 s (midpoint 3.05 s)
goes entirely to scene 2's bucket, not scene 1's. -/
theorem caption_bucketing_by_midpoint :
    (∀ (segs : List AudioSegment) (i : Nat) (seg : AudioSegment),
        segs[i]? = some seg →
        (sceneWindows segs)[i]? =
          some (durSumTake segs i, durSumTake segs i + seg.duration))
  ∧ (∀ (segs : List AudioSegment) (subs : List SubRipItem) (sub : SubRipItem)
       (i : Nat) (b : List SubRipItem),
        (assignCaptions (sceneWindows segs) subs (bucketsInit segs))[i]? = some b →
        (sub ∈ b ↔ sub ∈ subs ∧
          firstContaining (sceneWindows segs) (subMid sub) = some i))
  ∧ sceneWindows exSegs = [(0, 3), (3, 7), (7, 9)]
  ∧ subMid exCaption = 61/20
  ∧ distribute_captions [exCaption] exSegs = [[], [exCaption], []] := by
  refine ⟨?_, ?_, ?_, ?_, ?_⟩
  · intro segs i seg h
    simpa [sceneWindows] using sceneWindowsAux_getElem? segs 0 i seg h
  · exact fun segs subs sub i b hb => mem_assignCaptions segs subs sub i b hb
  · norm_num [sceneWindows, sceneWindowsAux, exSegs]
  · norm_num [subMid, exCaption]
  · norm_num [distribute_captions, assignCaptions, assignCaption, firstContaining,
      containsMid, subMid, sceneWindows, sceneWindowsAux, bucketsInit, listModify,
      extendBucket, pyInt, exSegs, exCaption, List.zip, List.zipWith, List.getLast?]

/-- C3 witness: the universally quantified parts evaluated at the concrete
[3, 4, 2] fixture: window 1 is [3, 7) by the running sum, and the caption
with midpoint 3.05 s is in bucket 1 because window 1 is the first window
containing its midpoint. -/
theorem caption_bucketing_by_midpoint_witness :
    (sceneWindows exSegs)[1]? =
      some (durSumTake exSegs 1, durSumTake exSegs 1 + 4)
  ∧ (exCaption ∈ ([exCaption] : List SubRipItem) ↔
      exCaption ∈ ([exCaption] : List SubRipItem) ∧
        firstContaining (sceneWindows exSegs) (subMid exCaption) = some 1) := by
  constructor
  · exact caption_bucketing_by_midpoint.1 exSegs 1 ⟨"body_1", "body.mp3", 4⟩ rfl
  · exact caption_bucketing_by_midpoint.2.1 exSegs [exCaption] exCaption 1 [exCaption]
      (by norm_num [assignCaptions, assignCaption, firstContaining, containsMid,
        subMid, sceneWindows, sceneWindowsAux, bucketsInit, listModify,
        exSegs, exCaption])

/-- C4 counterexample: swapping two captions of the same scene changes the
output of `_distribute_captions` — the bucket keeps input order, and the
boundary-extension pass rewrites whichever caption is positionally last, so
with the late caption (1.5 s - 1.9 s) listed first nothing is extended, while
with it listed last its end is snapped to the 2.0 s window end. -/
theorem caption_order_dependence_counterexample :
    ([permC1, permC2] : List SubRipItem).Perm [permC2, permC1]
  ∧ distribute_captions [permC1, permC2] oneSeg = [[permC1, permC2]]
  ∧ distribute_captions [permC2, permC1] oneSeg
      = [[permC2, ⟨1, 1500, 2000, "late caption"⟩]]
  ∧ distribute_captions [permC1, permC2] oneSeg
      ≠ distribute_captions [permC2, permC1] oneSeg := by
  have h1 : distribute_captions [permC1, permC2] oneSeg = [[permC1, permC2]] := by
    norm_num [distribute_captions, assignCaptions, assignCaption, firstContaining,
      containsMid, subMid, sceneWindows, sceneWindowsAux, bucketsInit, listModify,
      extendBucket, pyInt, oneSeg, permC1, permC2, List.zip, List.zipWith,
      List.getLast?]
  have h2 : distribute_captions [permC2, permC1] oneSeg
      = [[permC2, ⟨1, 1500, 2000, "late caption"⟩]] := by
    norm_num [distribute_captions, assignCaptions, assignCaption, firstContaining,
      containsMid, subMid, sceneWindows, sceneWindowsAux, bucketsInit, listModify,
      extendBucket, pyInt, oneSeg, permC1, permC2, List.zip, List.zipWith,
      List.getLast?, Int.tdiv]
  exact ⟨List.Perm.swap permC2 permC1 [], h1, h2, by rw [h1, h2]; decide⟩

/-- C4 amended: the bucket-assignment phase is order-independent up to
permutation — permuting the input captions permutes each scene's bucket
correspondingly, since a caption's destination depends only on its own
midpoint and the windows — but the order within a bucket follows input
order, and the boundary-extension pass targets the positionally last
caption of a bucket, so the final output of `_distribute_captions` is not
invariant under permutation of the input. -/
theorem caption_assignment_order_independent (segs : List AudioSegment)
    (subs subs' : List SubRipItem) (h : subs.Perm subs') (i : Nat) :
    ((assignCaptions (sceneWindows segs) subs (bucketsInit segs))[i]?.getD []).Perm
      ((assignCaptions (sceneWindows segs) subs' (bucketsInit segs))[i]?.getD []) := by
  rw [assignCaptions_getElem?, assignCaptions_getElem?, bucketsInit_getElem?]
  by_cases hi : i < segs.length
  · rw [if_pos hi]
    simpa using h.filter
      (fun sub => decide (firstContaining (sceneWindows segs) (subMid sub) = some i))
  · rw [if_neg hi]
    simp

/-- C4 witness: the amended statement at the concrete swapped pair — the
single scene's pre-extension bucket with input [permC1, permC2] is a
permutation of the bucket with input [permC2, permC1]. -/
theorem caption_assignment_order_independent_witness :
    ((assignCaptions (sceneWindows oneSeg) [permC1, permC2] (bucketsInit oneSeg))[0]?.getD
        []).Perm
      ((assignCaptions (sceneWindows oneSeg) [permC2, permC1] (bucketsInit oneSeg))[0]?.getD
        []) :=
  caption_assignment_order_independent oneSeg [permC1, permC2] [permC2, permC1]
    (List.Perm.swap permC2 permC1 []) 0

/-- C5 counterexample: in a scene window ending at 2.0 s, a last caption
ending at 3.5 s lies 1.5 s from the window end — farther than the 1.0 s
tolerance — yet `_distribute_captions` does not leave it unchanged: the
condition `win_end - last_sub_end < 1.0` is one-sided, so the caption's end
is snapped back to 2.0 s. -/
theorem boundary_extension_counterexample :
    sceneWindows oneSeg = [(0, 2)]
  ∧ (1 : ℚ) < |(2 : ℚ) - (farCaption.endOrdinal : ℚ) / 1000|
  ∧ distribute_captions [farCaption] oneSeg = [[⟨1, 0, 2000, "overlong caption"⟩]]
  ∧ distribute_captions [farCaption] oneSeg ≠ [[farCaption]] := by
  have h1 : distribute_captions [farCaption] oneSeg
      = [[⟨1, 0, 2000, "overlong caption"⟩]] := by
    norm_num [distribute_captions, assignCaptions, assignCaption, firstContaining,
      containsMid, subMid, sceneWindows, sceneWindowsAux, bucketsInit, listModify,
      extendBucket, pyInt, oneSeg, farCaption, List.zip, List.zipWith,
      List.getLast?, Int.tdiv]
  have habs : |(2 : ℚ) - (farCaption.endOrdinal : ℚ) / 1000| = 3/2 := by
    norm_num [farCaption]
  refine ⟨by norm_num [sceneWindows, sceneWindowsAux, oneSeg],
    by rw [habs]; norm_num, h1, by rw [h1]; decide⟩

/-- C5 amended: `_distribute_captions` applies `extendBucket` to each
(window, bucket) pair, and for a non-empty bucket the rewrite is governed by
the one-sided test `win_end - last_sub_end < 1.0`: whenever the last caption
ends less than 1.0 s before the window end — including ending at or after
the window end — its end is set to the window end (`int(win_end * 1000)`
milliseconds); when it ends 1.0 s or more before the window end the bucket
is unchanged. Concretely, with windows [0,3), [3,7), [7,9): a last caption
ending at 6.6 s in window 1 is extended to exactly 7.0 s while the earlier
caption ending at 5.0 s is untouched, and a last caption ending at 5.0 s is
left unchanged. -/
theorem boundary_extension_amended :
    (∀ (segs : List AudioSegment) (subs : List SubRipItem) (i : Nat) (w : ℚ × ℚ)
       (b : List SubRipItem),
        (sceneWindows segs)[i]? = some w →
        (assignCaptions (sceneWindows segs) subs (bucketsInit segs))[i]? = some b →
        (distribute_captions subs segs)[i]? = some (extendBucket w.2 b))
  ∧ (∀ (win_end : ℚ) (b : List SubRipItem) (last_sub : SubRipItem),
        b.getLast? = some last_sub →
        (win_end - (last_sub.endOrdinal : ℚ) / 1000 < 1 →
          extendBucket win_end b =
            b.dropLast ++ [{ last_sub with endOrdinal := pyInt (win_end * 1000) }])
      ∧ (1 ≤ win_end - (last_sub.endOrdinal : ℚ) / 1000 →
          extendBucket win_end b = b))
  ∧ distribute_captions [cap45, cap66] exSegs
      = [[], [cap45, ⟨3, 6000, 7000, "tail caption"⟩], []]
  ∧ distribute_captions [cap45] exSegs = [[], [cap45], []] := by
  refine ⟨?_, ?_, ?_, ?_⟩
  · intro segs subs i w b hw hb
    unfold distribute_captions
    rw [List.getElem?_map, zip_getElem?_of (sceneWindows segs) _ i w b hw hb]
    rfl
  · intro win_end b last_sub hlast
    constructor
    · intro hclose
      unfold extendBucket
      rw [hlast]
      simp [hclose]
    · intro hfar
      unfold extendBucket
      rw [hlast]
      simp [not_lt.mpr hfar]
  · norm_num [distribute_captions, assignCaptions, assignCaption, firstContaining,
      containsMid, subMid, sceneWindows, sceneWindowsAux, bucketsInit, listModify,
      extendBucket, pyInt, exSegs, cap45, cap66, List.zip, List.zipWith,
      List.getLast?, Int.tdiv]
  · norm_num [distribute_captions, assignCaptions, assignCaption, firstContaining,
      containsMid, subMid, sceneWindows, sceneWindowsAux, bucketsInit, listModify,
      extendBucket, pyInt, exSegs, cap45, List.zip, List.zipWith, List.getLast?]

/-- C5 witness: the amended statement applied at the [3, 4, 2] fixture —
scene 1's output bucket is `extendBucket` of its assigned bucket, and since
the last caption ends at 6.6 s (0.4 s before the 7.0 s window end) it is
rewritten to end exactly at 7.0 s. -/
theorem boundary_extension_amended_witness :
    (distribute_captions [cap45, cap66] exSegs)[1]?
      = some (extendBucket 7 [cap45, cap66])
  ∧ extendBucket 7 [cap45, cap66]
      = ([cap45, cap66] : List SubRipItem).dropLast
          ++ [{ cap66 with endOrdinal := pyInt (7 * 1000) }] := by
  constructor
  · exact boundary_extension_amended.1 exSegs [cap45, cap66] 1 (3, 7) [cap45, cap66]
      (by norm_num [sceneWindows, sceneWindowsAux, exSegs])
      (by norm_num [assignCaptions, assignCaption, firstContaining, containsMid,
        subMid, sceneWindows, sceneWindowsAux, bucketsInit, listModify,
        exSegs, cap45, cap66])
  · exact (boundary_extension_amended.2.1 7 [cap45, cap66] cap66 rfl).1
      (by norm_num [cap66])

/-- C10: in the assignment loop of `_distribute_captions`, every input
caption is appended to at most one scene bucket — the bucket of the first
window, in scene order, containing its midpoint — and a caption whose
midpoint lies in no scene window (for nonnegative durations this includes
every caption whose midpoint is at or after the total summed duration) is
appended to no bucket at all: it is silently dropped. -/
theorem caption_dropped_outside_windows (segs : List AudioSegment)
    (subs : List SubRipItem) (sub : SubRipItem) :
    (∀ (i j : Nat) (b_i b_j : List SubRipItem),
        (assignCaptions (sceneWindows segs) subs (bucketsInit segs))[i]? = some b_i →
        (assignCaptions (sceneWindows segs) subs (bucketsInit segs))[j]? = some b_j →
        sub ∈ b_i → sub ∈ b_j → i = j)
  ∧ (∀ (i : Nat) (b_i : List SubRipItem),
        (assignCaptions (sceneWindows segs) subs (bucketsInit segs))[i]? = some b_i →
        sub ∈ b_i →
        firstContaining (sceneWindows segs) (subMid sub) = some i
        ∧ ∃ w, (sceneWindows segs)[i]? = some w ∧ containsMid w (subMid sub) = true
            ∧ ∀ j w', j < i → (sceneWindows segs)[j]? = some w' →
                containsMid w' (subMid sub) = false)
  ∧ (firstContaining (sceneWindows segs) (subMid sub) = none →
      ∀ (i : Nat) (b_i : List SubRipItem),
        (assignCaptions (sceneWindows segs) subs (bucketsInit segs))[i]? = some b_i →
        sub ∉ b_i)
  ∧ ((∀ seg ∈ segs, 0 ≤ seg.duration) → durSumAll segs ≤ subMid sub →
      firstContaining (sceneWindows segs) (subMid sub) = none) := by
  refine ⟨?_, ?_, ?_, ?_⟩
  · intro i j b_i b_j hbi hbj hmi hmj
    have h1 := ((mem_assignCaptions segs subs sub i b_i hbi).mp hmi).2
    have h2 := ((mem_assignCaptions segs subs sub j b_j hbj).mp hmj).2
    rw [h1] at h2
    exact Option.some.inj h2
  · intro i b_i hbi hmi
    have h1 := ((mem_assignCaptions segs subs sub i b_i hbi).mp hmi).2
    obtain ⟨w, hw, hcw, hmin⟩ := firstContaining_spec _ _ _ h1
    exact ⟨h1, w, hw, hcw, fun j w' hj hjw => hmin j w' hj hjw⟩
  · intro hnone i b_i hbi hmi
    have h1 := ((mem_assignCaptions segs subs sub i b_i hbi).mp hmi).2
    rw [hnone] at h1
    exact Option.noConfusion h1
  · intro hpos htot
    rw [firstContaining_eq_none_iff]
    intro w hw
    have hend : w.2 ≤ 0 + durSumAll segs := sceneWindowsAux_end_le segs 0 hpos w hw
    have hnotlt : ¬ (subMid sub < w.2) := by
      rw [zero_add] at hend
      intro hlt
      linarith
    simp [containsMid, hnotlt]

/-- C10 witness: at the [3, 4, 2] fixture (total duration 9 s), a caption
spanning 9.0 s - 9.5 s (midpoint 9.25 s) has no containing window and bucket
0 — which evaluates to the empty list — does not contain it. -/
theorem caption_dropped_outside_windows_witness :
    firstContaining (sceneWindows exSegs) (subMid lateCaption) = none
  ∧ lateCaption ∉ ([] : List SubRipItem) := by
  have hpos : ∀ seg ∈ exSegs, 0 ≤ seg.duration := by
    intro seg hseg
    simp only [exSegs, List.mem_cons, List.not_mem_nil, or_false] at hseg
    rcases hseg with rfl | rfl | rfl <;> norm_num
  have htot : durSumAll exSegs ≤ subMid lateCaption := by
    norm_num [durSumAll, exSegs, subMid, lateCaption]
  have hnone :=
    (caption_dropped_outside_windows exSegs [lateCaption] lateCaption).2.2.2 hpos htot
  refine ⟨hnone, ?_⟩
  exact (caption_dropped_outside_windows exSegs [lateCaption] lateCaption).2.2.1
    hnone 0 []
    (by norm_num [assignCaptions, assignCaption, firstContaining, containsMid,
      subMid, sceneWindows, sceneWindowsAux, bucketsInit, listModify,
      exSegs, lateCaption])
